import Mathlib

/-!
Verification of the resource adapter in `src/nsxt/resource_nsxt_license.go`
(package `nsxt` of `terraform-provider-nsxt`).

The Go file defines one Terraform resource with five entry points:
`resourceNsxtLicenseCreate`, `resourceNsxtLicenseRead`,
`resourceNsxtLicenseUpdate`, `resourceNsxtLicenseDelete` and
`resourceNsxtLicenseImport`, plus the schema constructor
`resourceNsxtLicense`.

Modelling choices:

* `schema.ResourceData` is modelled by `ResourceData`: the identity string
  (`d.Id()` / `d.SetId`) plus an association list of named field values
  (`d.Get` / `d.Set`).  Terraform's `Get` returns the zero value of the
  field type when the field is unset; the typed getters below do the same.
* The remote API client (`nsxClient`) is modelled by `Client`, a record of
  response maps, one per API method used by the file; `m.(nsxtClients).NsxtClient`
  becomes `Env.nsxtClient : Option Client` (`none` = nil client).
  A Go API call returning `(value, *http.Response, error)` becomes an
  `ApiCallResult`; `DeleteStaticRoute` returns only `(*http.Response, error)`.
* Each operation returns an `OpOutcome`: the Go `error` result (`none` =
  nil error, i.e. success), the resource data as mutated in place by the
  operation, and the list of remote API calls issued, in order.
* Every `fmt.Errorf` call site in the file is mapped to an `OpError`
  constructor carrying the same distinguishing data as the format string.
* `resourceNsxtLicenseCreate` (lines 94-119) references the identifiers
  `logicalRouterID`, `staticRoute` and `LogicalRoutingAndServicesApi`,
  none of which is defined in the function or the file (a copy-paste
  defect from a static-route resource; the Go file does not compile as
  written).  The model makes them explicit unconstrained parameters
  `junkRouterID` and `junkRoute` so the function's control flow can still
  be analysed.
-/

namespace NsxtLicense

/-- Go `strings.Split` restricted to a one-character separator, on a
character list: `splitChar sep cs` is the list of subsequences of `cs`
separated by `sep`.  Like `strings.Split`, it yields `[[]]` on the empty
input and never yields an empty list of groups. -/
def splitChar (sep : Char) : List Char → List (List Char)
  | [] => [[]]
  | c :: rest =>
    match splitChar sep rest with
    | [] => if c = sep then [[], []] else [[c]]
    | g :: gs => if c = sep then [] :: g :: gs else (c :: g) :: gs

/-- Go `strings.Split s sep` for a one-character separator `sep`. -/
def stringsSplit (s : String) (sep : Char) : List String :=
  (splitChar sep s.data).map (fun cs => String.mk cs)

/-- `manager.Tag` (scope/tag pair), as used by the tag codecs. -/
structure Tag where
  scope : String
  tag : String
deriving Repr, DecidableEq

/-- `manager.StaticRouteNextHop`, as used by the next-hop codecs. -/
structure NextHop where
  ipAddress : String
  adminDistance : Int
deriving Repr, DecidableEq

/-- `manager.StaticRoute`: the payload/response struct of the static-route
API methods the file calls.  Fields not mentioned in the file are omitted;
`id` is `StaticRoute.Id` (the Go zero value is `""`). -/
structure StaticRoute where
  id : String
  revision : Int
  description : String
  displayName : String
  tags : List Tag
  logicalRouterId : String
  network : String
  nextHops : List NextHop
deriving Repr, DecidableEq

/-- `manager.License`-style value returned by `LicensingApi.CreateLicense`;
only its existence matters to the file (the result is never used), but the
server-side identity field is kept so claims about "the server-assigned
ID" can be stated. -/
structure License where
  licenseKey : String
deriving Repr, DecidableEq

/-- A dynamically typed schema field value (`interface{}` as stored by
`schema.ResourceData`). -/
inductive Value where
  | str : String → Value
  | int : Int → Value
  | bool : Bool → Value
  | tagList : List Tag → Value
  | hopList : List NextHop → Value
deriving Repr, DecidableEq

/-- Association-list update: replace the binding of `k` or append it. -/
def setField (fs : List (String × Value)) (k : String) (v : Value) :
    List (String × Value) :=
  match fs with
  | [] => [(k, v)]
  | (k₁, v₁) :: rest =>
    if k₁ = k then (k, v) :: rest else (k₁, v₁) :: setField rest k v

/-- Association-list lookup. -/
def getField (fs : List (String × Value)) (k : String) : Option Value :=
  match fs with
  | [] => none
  | (k₁, v₁) :: rest => if k₁ = k then some v₁ else getField rest k

/-- `schema.ResourceData`: the instance identity (`d.Id()`) and the named
field values. -/
structure ResourceData where
  id : String
  fields : List (String × Value)
deriving Repr, DecidableEq

/-- `d.Set(k, v)`. -/
def ResourceData.set (d : ResourceData) (k : String) (v : Value) :
    ResourceData :=
  { d with fields := setField d.fields k v }

/-- `d.Get(k).(string)`: the stored string, or the zero value `""`. -/
def ResourceData.getStr (d : ResourceData) (k : String) : String :=
  match getField d.fields k with
  | some (Value.str s) => s
  | _ => ""

/-- `int64(d.Get(k).(int))`: the stored integer, or the zero value `0`. -/
def ResourceData.getInt (d : ResourceData) (k : String) : Int :=
  match getField d.fields k with
  | some (Value.int n) => n
  | _ => 0

/-- `d.Get(k).(bool)`: the stored boolean, or the zero value `false`. -/
def ResourceData.getBool (d : ResourceData) (k : String) : Bool :=
  match getField d.fields k with
  | some (Value.bool b) => b
  | _ => false

/-- The declared type of a schema field (`schema.TypeString` / `TypeBool`). -/
inductive SchemaType where
  | string
  | bool
deriving Repr, DecidableEq

/-- One entry of the declarative schema map (name, type, and the
Required/Optional/Computed classification flags). -/
structure SchemaEntry where
  name : String
  type : SchemaType
  required : Bool
  optional : Bool
  computed : Bool
deriving Repr, DecidableEq

/-- The schema map of `resourceNsxtLicense` (lines 26-90 of the source),
in declaration order. -/
def resourceNsxtLicenseSchema : List SchemaEntry :=
  [⟨"license_key", SchemaType.string, true, false, false⟩,
   ⟨"accept_eula", SchemaType.bool, false, true, false⟩,
   ⟨"capacity_type", SchemaType.string, false, false, true⟩,
   ⟨"description", SchemaType.string, false, false, true⟩,
   ⟨"expiry", SchemaType.string, false, false, true⟩,
   ⟨"features", SchemaType.string, false, false, true⟩,
   ⟨"is_eval", SchemaType.bool, false, false, true⟩,
   ⟨"is_expired", SchemaType.bool, false, false, true⟩,
   ⟨"is_mh", SchemaType.bool, false, false, true⟩,
   ⟨"product_name", SchemaType.string, false, false, true⟩,
   ⟨"product_version", SchemaType.string, false, false, true⟩,
   ⟨"quantity", SchemaType.string, false, false, true⟩]

/-- The names declared by the license resource's schema. -/
def licenseSchemaKeys : List String :=
  resourceNsxtLicenseSchema.map (fun e => e.name)

/-- `*http.Response`, reduced to the only field the file inspects. -/
structure HttpResponse where
  statusCode : Nat
deriving Repr, DecidableEq

/-- The result triple `(value, resp, err)` of a generated API call. -/
structure ApiCallResult (α : Type) where
  value : α
  resp : Option HttpResponse
  err : Option String
deriving Repr, DecidableEq

/-- The result pair `(resp, err)` of `DeleteStaticRoute`.  The source
dereferences `resp.StatusCode` whenever `err` is nil, so the response is
modelled as present. -/
structure DeleteCallResult where
  resp : HttpResponse
  err : Option String
deriving Repr, DecidableEq

/-- The remote API client handle (`nsxClient`), as a record of response
maps for the API methods the file invokes. -/
structure Client where
  createLicense : ApiCallResult License
  addStaticRoute : String → StaticRoute → ApiCallResult StaticRoute
  readStaticRoute : String → String → ApiCallResult StaticRoute
  updateStaticRoute : String → String → StaticRoute → ApiCallResult StaticRoute
  deleteStaticRoute : String → String → DeleteCallResult

/-- The ambient world an operation runs in: the (possibly nil) client
handle from `m.(nsxtClients).NsxtClient`, and whether the next-hop
field codec fails (the source checks the error of `setNextHopsInSchema`,
whose body is outside the supplied source). -/
structure Env where
  nsxtClient : Option Client
  nextHopsCodecFails : Bool

/-- The distinct error productions of the file, one constructor per
`fmt.Errorf`/helper call site, carrying the data the format string
carries. -/
inductive OpError where
  /-- `resourceNotSupportedError()`: no client handle. -/
  | clientUnavailable
  /-- "Error obtaining <which>": a required identifier is empty. -/
  | missingId (which : String)
  /-- "Error during <ctx>: %v": transport/API failure, with its cause. -/
  | remoteCall (ctx : String) (cause : Option String)
  /-- "Unexpected status returned during <ctx>: %v". -/
  | unexpectedStatus (ctx : String) (status : Nat)
  /-- "Error during StaticRoute set in schema: %v": field codec failure. -/
  | codec (msg : String)
  /-- "Please provide <router-id>/<static-route-id> as an input". -/
  | malformedImportKey
deriving Repr, DecidableEq

/-- Modelled from the spec: `resourceNotSupportedError` is defined outside
the supplied source (provider utilities); per the spec, a nil client
handle is the terminal "operation not supported in this configuration"
condition, i.e. `ClientUnavailable`. -/
def resourceNotSupportedError : OpError :=
  OpError.clientUnavailable

/-- One remote API invocation, with its arguments. -/
inductive RemoteCall where
  | createLicense
  | addStaticRoute (routerId : String) (route : StaticRoute)
  | readStaticRoute (routerId : String) (id : String)
  | updateStaticRoute (routerId : String) (id : String) (payload : StaticRoute)
  | deleteStaticRoute (routerId : String) (id : String)
deriving Repr, DecidableEq

/-- Whether a remote call is an update call. -/
def RemoteCall.isUpdate : RemoteCall → Bool
  | RemoteCall.updateStaticRoute _ _ _ => true
  | _ => false

/-- What one adapter invocation produced: the returned Go `error`
(`none` = success), the resource data as mutated in place, and the remote
calls issued, in order. -/
structure OpOutcome where
  err : Option OpError
  d : ResourceData
  calls : List RemoteCall
deriving Repr, DecidableEq

/-- `resp != nil && resp.StatusCode == http.StatusNotFound`. -/
def respIs404 : Option HttpResponse → Bool
  | some r => r.statusCode == 404
  | none => false

/-- An unconditional `resp.StatusCode` dereference (as in Create and
Update, which never nil-check the response).  A nil response there would
crash the Go program; the model maps it to the impossible status `0`. -/
def derefStatus (r : Option HttpResponse) : Nat :=
  (r.map (fun resp => resp.statusCode)).getD 0

/-- Modelled from the spec: `setTagsInSchema` (defined outside the
supplied source) is the field-level codec writing the tag list into the
schema field `"tags"`; its source-visible usage returns no error. -/
def setTagsInSchema (d : ResourceData) (tags : List Tag) : ResourceData :=
  d.set "tags" (Value.tagList tags)

/-- Modelled from the spec: `getTagsFromSchema` (defined outside the
supplied source) is the codec reading the tag list back from the schema
field `"tags"` (zero value: the empty list). -/
def getTagsFromSchema (d : ResourceData) : List Tag :=
  match getField d.fields "tags" with
  | some (Value.tagList ts) => ts
  | _ => []

/-- Modelled from the spec: `setNextHopsInSchema` (defined outside the
supplied source) is the codec writing the next-hop list into the schema
field `"next_hops"`; the source checks its error result, so the model
lets it fail via the ambient flag `Env.nextHopsCodecFails`. -/
def setNextHopsInSchema (env : Env) (d : ResourceData) (hops : List NextHop) :
    Except String ResourceData :=
  if env.nextHopsCodecFails then Except.error "next_hops"
  else Except.ok (d.set "next_hops" (Value.hopList hops))

/-- Modelled from the spec: `getNextHopsFromSchema` (defined outside the
supplied source) is the codec reading the next-hop list back from the
schema field `"next_hops"` (zero value: the empty list). -/
def getNextHopsFromSchema (d : ResourceData) : List NextHop :=
  match getField d.fields "next_hops" with
  | some (Value.hopList hs) => hs
  | _ => []

/-- `resourceNsxtLicenseRead` (lines 121-159 of the source). -/
def resourceNsxtLicenseRead (env : Env) (d : ResourceData) : OpOutcome :=
  match env.nsxtClient with
  | none => ⟨some resourceNotSupportedError, d, []⟩
  | some nsxClient =>
    if d.id = "" then
      ⟨some (OpError.missingId "logical object id"), d, []⟩
    else
      let logicalRouterID := d.getStr "logical_router_id"
      if logicalRouterID = "" then
        ⟨some (OpError.missingId "logical router id during static route read"),
          d, []⟩
      else
        let r := nsxClient.readStaticRoute logicalRouterID d.id
        let calls := [RemoteCall.readStaticRoute logicalRouterID d.id]
        if respIs404 r.resp then
          ⟨none, { d with id := "" }, calls⟩
        else if r.err.isSome then
          ⟨some (OpError.remoteCall "StaticRoute read" r.err), d, calls⟩
        else
          let sr := r.value
          let d₁ := d.set "revision" (Value.int sr.revision)
          let d₂ := d₁.set "description" (Value.str sr.description)
          let d₃ := d₂.set "display_name" (Value.str sr.displayName)
          let d₄ := setTagsInSchema d₃ sr.tags
          let d₅ := d₄.set "logical_router_id" (Value.str sr.logicalRouterId)
          let d₆ := d₅.set "network" (Value.str sr.network)
          match setNextHopsInSchema env d₆ sr.nextHops with
          | Except.error e => ⟨some (OpError.codec e), d₆, calls⟩
          | Except.ok d₇ => ⟨none, d₇, calls⟩

/-- The `manager.StaticRoute` literal built by `resourceNsxtLicenseUpdate`
(lines 177-191 of the source): the stored revision token and every mutable
field, read back from the resource data; `Id` is left at the Go zero
value `""`. -/
def updatePayload (d : ResourceData) (logicalRouterID : String) : StaticRoute :=
  ⟨"", d.getInt "revision", d.getStr "description", d.getStr "display_name",
    getTagsFromSchema d, logicalRouterID, d.getStr "network",
    getNextHopsFromSchema d⟩

/-- `resourceNsxtLicenseUpdate` (lines 161-200 of the source). -/
def resourceNsxtLicenseUpdate (env : Env) (d : ResourceData) : OpOutcome :=
  match env.nsxtClient with
  | none => ⟨some resourceNotSupportedError, d, []⟩
  | some nsxClient =>
    if d.id = "" then
      ⟨some (OpError.missingId "logical object id"), d, []⟩
    else
      let logicalRouterID := d.getStr "logical_router_id"
      if logicalRouterID = "" then
        ⟨some (OpError.missingId "logical router id during static route update"),
          d, []⟩
      else
        let staticRoute : StaticRoute := updatePayload d logicalRouterID
        let r := nsxClient.updateStaticRoute logicalRouterID d.id staticRoute
        let calls := [RemoteCall.updateStaticRoute logicalRouterID d.id staticRoute]
        if r.err.isSome || derefStatus r.resp == 404 then
          ⟨some (OpError.remoteCall "StaticRoute update" r.err), d, calls⟩
        else
          let rd := resourceNsxtLicenseRead env d
          ⟨rd.err, rd.d, calls ++ rd.calls⟩

/-- `resourceNsxtLicenseDelete` (lines 202-228 of the source). -/
def resourceNsxtLicenseDelete (env : Env) (d : ResourceData) : OpOutcome :=
  match env.nsxtClient with
  | none => ⟨some resourceNotSupportedError, d, []⟩
  | some nsxClient =>
    if d.id = "" then
      ⟨some (OpError.missingId "logical object id"), d, []⟩
    else
      let logicalRouterID := d.getStr "logical_router_id"
      if logicalRouterID = "" then
        ⟨some (OpError.missingId "logical router id during static route deletion"),
          d, []⟩
      else
        let r := nsxClient.deleteStaticRoute logicalRouterID d.id
        let calls := [RemoteCall.deleteStaticRoute logicalRouterID d.id]
        if r.err.isSome then
          ⟨some (OpError.remoteCall "StaticRoute delete" r.err), d, calls⟩
        else if r.resp.statusCode == 404 then
          ⟨none, { d with id := "" }, calls⟩
        else
          ⟨none, d, calls⟩

/-- `resourceNsxtLicenseCreate` (lines 94-119 of the source).  The free
Go identifiers `logicalRouterID` and `staticRoute` (undefined in the
file: a copy-paste defect) are the explicit parameters `junkRouterID` and
`junkRoute`; the undefined `LogicalRoutingAndServicesApi.AddStaticRoute`
call, whose results are discarded, is modelled through the client. -/
def resourceNsxtLicenseCreate (env : Env) (junkRouterID : String)
    (junkRoute : StaticRoute) (d : ResourceData) : OpOutcome :=
  match env.nsxtClient with
  | none => ⟨some resourceNotSupportedError, d, []⟩
  | some nsxClient =>
    let _l := d.getStr "license_key"
    let _e := d.getBool "accept_eula"
    let r := nsxClient.createLicense
    let _discarded := nsxClient.addStaticRoute junkRouterID junkRoute
    let calls := [RemoteCall.createLicense,
                  RemoteCall.addStaticRoute junkRouterID junkRoute]
    if r.err.isSome then
      ⟨some (OpError.remoteCall ("StaticRoute create on router " ++ junkRouterID)
          r.err), d, calls⟩
    else if derefStatus r.resp ≠ 200 then
      ⟨some (OpError.unexpectedStatus
          ("StaticRoute create on router " ++ junkRouterID)
          (derefStatus r.resp)), d, calls⟩
    else
      let d₁ := { d with id := junkRoute.id }
      let rd := resourceNsxtLicenseRead env d₁
      ⟨rd.err, rd.d, calls ++ rd.calls⟩

/-- `resourceNsxtLicenseImport` (lines 230-239 of the source).  The Go
function returns `([]*schema.ResourceData{d}, nil)` on success, i.e. the
singleton of the mutated data, so `OpOutcome` carries all of it; the `m`
argument is received but never used, exactly as in the source. -/
def resourceNsxtLicenseImport (_env : Env) (d : ResourceData) : OpOutcome :=
  let importID := d.id
  let s := stringsSplit importID '/'
  if s.length ≠ 2 then
    ⟨some OpError.malformedImportKey, d, []⟩
  else
    let d₁ := { d with id := s[1]! }
    let d₂ := d₁.set "logical_router_id" (Value.str s[0]!)
    ⟨none, d₂, []⟩

/-! ### Fixtures for concrete instantiations -/

/-- A concrete static route. -/
def sr₀ : StaticRoute :=
  ⟨"route9", 5, "edge route", "sr-name", [⟨"scope-a", "tag-a"⟩], "router1",
    "10.0.0.0/24", [⟨"10.0.0.1", 1⟩]⟩

/-- A concrete license value. -/
def license₀ : License := ⟨"LIC-KEY"⟩

/-- A client whose response to each API method is a fixed value. -/
def constClient (cr : ApiCallResult License) (rr : ApiCallResult StaticRoute)
    (ur : ApiCallResult StaticRoute) (dr : DeleteCallResult) : Client :=
  ⟨cr, fun _ _ => rr, fun _ _ => rr, fun _ _ _ => ur, fun _ _ => dr⟩

/-- A 200/no-error creation response. -/
def createOk : ApiCallResult License := ⟨license₀, some ⟨200⟩, none⟩

/-- A 200/no-error static-route response. -/
def apiOk : ApiCallResult StaticRoute := ⟨sr₀, some ⟨200⟩, none⟩

/-- A 404/no-error static-route response. -/
def api404 : ApiCallResult StaticRoute := ⟨sr₀, some ⟨404⟩, none⟩

/-- A transport-error static-route response (nil `*http.Response`). -/
def apiErr : ApiCallResult StaticRoute := ⟨sr₀, none, some "connection refused"⟩

/-- A 200/no-error delete response. -/
def delOk : DeleteCallResult := ⟨⟨200⟩, none⟩

/-- A 404/no-error delete response. -/
def del404 : DeleteCallResult := ⟨⟨404⟩, none⟩

/-- The environment with a nil client handle. -/
def envNone : Env := ⟨none, false⟩

/-- A client answering every call with 200/no error. -/
def clientAllOk : Client := constClient createOk apiOk apiOk delOk

/-- A client whose static-route fetch answers 404. -/
def clientRead404 : Client := constClient createOk api404 apiOk delOk

/-- A client whose delete call answers 404 with no transport error. -/
def clientDel404 : Client := constClient createOk apiOk apiOk del404

/-- A client whose update call answers 404. -/
def clientUpd404 : Client := constClient createOk apiOk api404 delOk

/-- A client whose static-route fetch fails with a transport error. -/
def clientReadFails : Client := constClient createOk apiErr apiOk delOk

/-- Resource data before first creation: empty ID, parent identifier set. -/
def dNew : ResourceData := ⟨"", [("logical_router_id", Value.str "router1")]⟩

/-- The field names written by the `d.Set` calls on the success path of
`resourceNsxtLicenseRead` (lines 147-153 of the source), in call order. -/
def readOverwrittenKeys : List String :=
  ["revision", "description", "display_name", "tags", "logical_router_id",
   "network", "next_hops"]

/-- Resource data holding only a parent router identifier dressed as the
license resource's companions would store it. -/
def d₀ : ResourceData := ⟨"route9", [("logical_router_id", Value.str "router1")]⟩

/-! ### Theorems -/

/--
Claim C1, counterexample.  The claim says an import key with one slash
but an empty component (here `"/route9"`) must fail with
`MalformedImportKeyError`; the source only checks that the split has
exactly two components, so it accepts the key, returning ID `"route9"`
and an empty parent identifier.
-/
theorem importAcceptsEmptyComponentKey :
    resourceNsxtLicenseImport envNone ⟨"/route9", []⟩ =
      ⟨none, ⟨"route9", [("logical_router_id", Value.str "")]⟩, []⟩ := by
  decide

/--
Claim C1 (amended): Import succeeds exactly when the key splits on `/`
into exactly two components, which may be empty; on success it returns
the instance with ID set to the second component and the
parent-identifier field to the first, calling no remote API, and on any
other key it fails with `MalformedImportKeyError`.
-/
theorem importParsesCompositeKey (env : Env) (d : ResourceData) :
    ((stringsSplit d.id '/').length = 2 →
      resourceNsxtLicenseImport env d =
        ⟨none,
          ResourceData.set { d with id := (stringsSplit d.id '/')[1]! }
            "logical_router_id" (Value.str (stringsSplit d.id '/')[0]!), []⟩)
    ∧ ((stringsSplit d.id '/').length ≠ 2 →
      resourceNsxtLicenseImport env d =
        ⟨some OpError.malformedImportKey, d, []⟩) := by
  constructor
  · intro h
    simp [resourceNsxtLicenseImport, h]
  · intro h
    simp [resourceNsxtLicenseImport, h]

/--
Claim C1, witness: `Import("router1/route9")` yields ID `"route9"` and
parent-identifier field `"router1"`.
-/
theorem importParsesCompositeKeyWitness :
    resourceNsxtLicenseImport envNone ⟨"router1/route9", []⟩ =
      ⟨none, ⟨"route9", [("logical_router_id", Value.str "router1")]⟩, []⟩ :=
  (importParsesCompositeKey envNone ⟨"router1/route9", []⟩).1 (by decide)

/--
Claim C5, counterexample.  The claim says all five operations fail with
`ClientUnavailable` on a nil client handle; `resourceNsxtLicenseImport`
never inspects the client handle and succeeds with a nil one.
-/
theorem importIgnoresNilClient :
    (resourceNsxtLicenseImport envNone ⟨"router1/route9", []⟩).err = none := by
  decide

/--
Claim C5 (amended): Create, Read, Update and Delete each fail with
`ClientUnavailable` before any remote call when the client handle is nil;
Import, however, never consults the client handle (its result is the same
under every environment) and so does not fail with `ClientUnavailable`.
-/
theorem nilClientFailsCrud (env : Env) (junkRouterID : String)
    (junkRoute : StaticRoute) (d : ResourceData)
    (h : env.nsxtClient = none) :
    resourceNsxtLicenseCreate env junkRouterID junkRoute d =
        ⟨some OpError.clientUnavailable, d, []⟩
    ∧ resourceNsxtLicenseRead env d = ⟨some OpError.clientUnavailable, d, []⟩
    ∧ resourceNsxtLicenseUpdate env d = ⟨some OpError.clientUnavailable, d, []⟩
    ∧ resourceNsxtLicenseDelete env d = ⟨some OpError.clientUnavailable, d, []⟩
    ∧ ∀ env₂ : Env,
        resourceNsxtLicenseImport env d = resourceNsxtLicenseImport env₂ d := by
  refine ⟨?_, ?_, ?_, ?_, fun env₂ => rfl⟩ <;>
    simp [resourceNsxtLicenseCreate, resourceNsxtLicenseRead,
      resourceNsxtLicenseUpdate, resourceNsxtLicenseDelete, h,
      resourceNotSupportedError]

/--
Claim C5, witness: with a nil client handle, Read on concrete data fails
with `ClientUnavailable` and no remote call.
-/
theorem nilClientFailsCrudWitness :
    resourceNsxtLicenseRead envNone d₀ =
      ⟨some OpError.clientUnavailable, d₀, []⟩ :=
  (nilClientFailsCrud envNone "router1" sr₀ d₀ rfl).2.1

/--
Claim C2: for every instance with a non-empty ID and non-empty parent
identifier, a 404 on the remote fetch makes Read succeed (nil error),
clear the instance's ID to empty, and change no other field (the field
list is returned untouched); exactly the one fetch call is issued.
-/
theorem read404ClearsIdOnly (env : Env) (c : Client) (d : ResourceData)
    (hc : env.nsxtClient = some c) (hid : d.id ≠ "")
    (hrouter : d.getStr "logical_router_id" ≠ "")
    (h404 : respIs404
      (c.readStaticRoute (d.getStr "logical_router_id") d.id).resp = true) :
    resourceNsxtLicenseRead env d =
      ⟨none, { d with id := "" },
        [RemoteCall.readStaticRoute (d.getStr "logical_router_id") d.id]⟩ := by
  simp [resourceNsxtLicenseRead, hc, hid, hrouter, h404]

/--
Claim C2, witness: Read of `d₀` against a mock client answering 404
clears the ID, keeps the fields, and returns no error.
-/
theorem read404ClearsIdOnlyWitness :
    resourceNsxtLicenseRead ⟨some clientRead404, false⟩ d₀ =
      ⟨none, ⟨"", [("logical_router_id", Value.str "router1")]⟩,
        [RemoteCall.readStaticRoute "router1" "route9"]⟩ :=
  read404ClearsIdOnly ⟨some clientRead404, false⟩ clientRead404 d₀ rfl
    (by decide) (by decide) (by decide)

/--
Claim C3: for every instance with a non-empty ID and non-empty parent
identifier, a 404 (with no transport error) on the remote delete call
makes Delete clear the instance's ID and report success.
-/
theorem delete404ClearsId (env : Env) (c : Client) (d : ResourceData)
    (hc : env.nsxtClient = some c) (hid : d.id ≠ "")
    (hrouter : d.getStr "logical_router_id" ≠ "")
    (herr : (c.deleteStaticRoute (d.getStr "logical_router_id") d.id).err = none)
    (h404 : (c.deleteStaticRoute (d.getStr "logical_router_id") d.id).resp.statusCode
      = 404) :
    resourceNsxtLicenseDelete env d =
      ⟨none, { d with id := "" },
        [RemoteCall.deleteStaticRoute (d.getStr "logical_router_id") d.id]⟩ := by
  simp [resourceNsxtLicenseDelete, hc, hid, hrouter, herr, h404]

/--
Claim C3, witness: Delete of `d₀` against a mock client answering 404
clears the ID and returns success.
-/
theorem delete404ClearsIdWitness :
    resourceNsxtLicenseDelete ⟨some clientDel404, false⟩ d₀ =
      ⟨none, ⟨"", [("logical_router_id", Value.str "router1")]⟩,
        [RemoteCall.deleteStaticRoute "router1" "route9"]⟩ :=
  delete404ClearsId ⟨some clientDel404, false⟩ clientDel404 d₀ rfl
    (by decide) (by decide) (by decide) (by decide)

/--
Claim C4: for every instance with a non-empty ID and non-empty parent
identifier, a 404 status on the remote update call makes Update fail with
the remote-call error, leaving the resource data (its ID in particular)
unchanged.
-/
theorem update404IsHardError (env : Env) (c : Client) (d : ResourceData)
    (hc : env.nsxtClient = some c) (hid : d.id ≠ "")
    (hrouter : d.getStr "logical_router_id" ≠ "")
    (h404 : derefStatus
      (c.updateStaticRoute (d.getStr "logical_router_id") d.id
        (updatePayload d (d.getStr "logical_router_id"))).resp = 404) :
    resourceNsxtLicenseUpdate env d =
      ⟨some (OpError.remoteCall "StaticRoute update"
          (c.updateStaticRoute (d.getStr "logical_router_id") d.id
            (updatePayload d (d.getStr "logical_router_id"))).err),
        d,
        [RemoteCall.updateStaticRoute (d.getStr "logical_router_id") d.id
          (updatePayload d (d.getStr "logical_router_id"))]⟩ := by
  simp [resourceNsxtLicenseUpdate, hc, hid, hrouter, h404]

/--
Claim C4, witness: Update of `d₀` against a mock client answering 404
returns the remote-call error with the data unchanged.
-/
theorem update404IsHardErrorWitness :
    resourceNsxtLicenseUpdate ⟨some clientUpd404, false⟩ d₀ =
      ⟨some (OpError.remoteCall "StaticRoute update" none), d₀,
        [RemoteCall.updateStaticRoute "router1" "route9"
          (updatePayload d₀ "router1")]⟩ :=
  update404IsHardError ⟨some clientUpd404, false⟩ clientUpd404 d₀ rfl
    (by decide) (by decide) (by decide)

/--
Claim C6: with a client handle present, Read, Update and Delete each fail
with the missing-identifier error naming the absent identifier — the
logical object id when the ID is empty, else the logical router id when
the parent identifier field is empty — and make no remote call.
-/
theorem missingIdentifierFailsFast (env : Env) (c : Client) (d : ResourceData)
    (hc : env.nsxtClient = some c) :
    (d.id = "" →
        resourceNsxtLicenseRead env d =
          ⟨some (OpError.missingId "logical object id"), d, []⟩
      ∧ resourceNsxtLicenseUpdate env d =
          ⟨some (OpError.missingId "logical object id"), d, []⟩
      ∧ resourceNsxtLicenseDelete env d =
          ⟨some (OpError.missingId "logical object id"), d, []⟩)
    ∧ (d.id ≠ "" → d.getStr "logical_router_id" = "" →
        resourceNsxtLicenseRead env d =
          ⟨some (OpError.missingId "logical router id during static route read"),
            d, []⟩
      ∧ resourceNsxtLicenseUpdate env d =
          ⟨some (OpError.missingId "logical router id during static route update"),
            d, []⟩
      ∧ resourceNsxtLicenseDelete env d =
          ⟨some (OpError.missingId
              "logical router id during static route deletion"), d, []⟩) := by
  constructor
  · intro hid
    refine ⟨?_, ?_, ?_⟩ <;>
      simp [resourceNsxtLicenseRead, resourceNsxtLicenseUpdate,
        resourceNsxtLicenseDelete, hc, hid]
  · intro hid hrouter
    refine ⟨?_, ?_, ?_⟩ <;>
      simp [resourceNsxtLicenseRead, resourceNsxtLicenseUpdate,
        resourceNsxtLicenseDelete, hc, hid, hrouter]

/--
Claim C6, witness: an empty ID fails Read with the logical-object-id
error, and an empty parent identifier fails Delete with the
logical-router-id error, both without remote calls.
-/
theorem missingIdentifierFailsFastWitness :
    resourceNsxtLicenseRead ⟨some clientAllOk, false⟩ ⟨"", []⟩ =
      ⟨some (OpError.missingId "logical object id"), ⟨"", []⟩, []⟩
    ∧ resourceNsxtLicenseDelete ⟨some clientAllOk, false⟩ ⟨"route9", []⟩ =
      ⟨some (OpError.missingId "logical router id during static route deletion"),
        ⟨"route9", []⟩, []⟩ :=
  ⟨((missingIdentifierFailsFast ⟨some clientAllOk, false⟩ clientAllOk
      ⟨"", []⟩ rfl).1 rfl).1,
   ((missingIdentifierFailsFast ⟨some clientAllOk, false⟩ clientAllOk
      ⟨"route9", []⟩ rfl).2 (by decide) rfl).2.2⟩

/-!
Shared helper lemmas about how the operations treat the instance
identity.
-/

/-- Read either leaves the ID alone, or (only) in the 404 branch returns
success with the ID cleared. -/
theorem readOutcomeCases (env : Env) (d : ResourceData) :
    (resourceNsxtLicenseRead env d).d.id = d.id
    ∨ ((resourceNsxtLicenseRead env d).err = none
      ∧ (resourceNsxtLicenseRead env d).d.id = ""
      ∧ ∃ c, env.nsxtClient = some c
        ∧ respIs404
            (c.readStaticRoute (d.getStr "logical_router_id") d.id).resp
          = true) := by
  simp only [resourceNsxtLicenseRead]
  split
  · exact Or.inl rfl
  next c heq =>
    split
    · exact Or.inl rfl
    · split
      · exact Or.inl rfl
      · split
        next h404 => exact Or.inr ⟨rfl, rfl, c, heq, by simpa using h404⟩
        · split
          · exact Or.inl rfl
          · split
            · exact Or.inl rfl
            next d₇ hcodec =>
              simp only [setNextHopsInSchema] at hcodec
              split at hcodec
              · cases hcodec
              · cases hcodec
                exact Or.inl rfl

/-- An error return of Read leaves the ID unchanged. -/
theorem readErrPreservesId (env : Env) (d : ResourceData)
    (h : (resourceNsxtLicenseRead env d).err.isSome) :
    (resourceNsxtLicenseRead env d).d.id = d.id := by
  rcases readOutcomeCases env d with h₁ | ⟨h₁, _, _⟩
  · exact h₁
  · rw [h₁] at h
    cases h

/-- Delete either leaves the data alone, or (only) in the 404 branch
returns success with the ID cleared. -/
theorem deleteOutcomeCases (env : Env) (d : ResourceData) :
    (resourceNsxtLicenseDelete env d).d.id = d.id
    ∨ ((resourceNsxtLicenseDelete env d).err = none
      ∧ (resourceNsxtLicenseDelete env d).d.id = ""
      ∧ ∃ c, env.nsxtClient = some c
        ∧ (c.deleteStaticRoute (d.getStr "logical_router_id") d.id).err = none
        ∧ (c.deleteStaticRoute (d.getStr "logical_router_id") d.id).resp.statusCode
          = 404) := by
  simp only [resourceNsxtLicenseDelete]
  split
  · exact Or.inl rfl
  next c heq =>
    split
    · exact Or.inl rfl
    · split
      · exact Or.inl rfl
      · split
        · exact Or.inl rfl
        next herr =>
          split
          next h404 =>
            refine Or.inr ⟨rfl, rfl, c, heq, ?_, by simpa using h404⟩
            cases hcase : (c.deleteStaticRoute (d.getStr "logical_router_id")
                d.id).err with
            | none => rfl
            | some e => rw [hcase] at herr; simp at herr
          · exact Or.inl rfl

/-- Update either leaves the ID alone, or returns success with the ID
cleared (via the 404 branch of its follow-up Read). -/
theorem updateOutcomeCases (env : Env) (d : ResourceData) :
    (resourceNsxtLicenseUpdate env d).d.id = d.id
    ∨ ((resourceNsxtLicenseUpdate env d).err = none
      ∧ (resourceNsxtLicenseUpdate env d).d.id = "") := by
  simp only [resourceNsxtLicenseUpdate]
  split
  · exact Or.inl rfl
  next c heq =>
    split
    · exact Or.inl rfl
    · split
      · exact Or.inl rfl
      · split
        · exact Or.inl rfl
        · rcases readOutcomeCases env d with h₁ | ⟨h₁, h₂, _⟩
          · exact Or.inl h₁
          · exact Or.inr ⟨h₁, h₂⟩

/-- Create leaves the ID alone on every path up to and including the
creation call; after a successful creation call the ID is the junk
route's, whatever the follow-up Read does short of clearing it. -/
theorem createOutcomeCases (env : Env) (junkRouterID : String)
    (junkRoute : StaticRoute) (d : ResourceData)
    (h : (resourceNsxtLicenseCreate env junkRouterID junkRoute d).err.isSome) :
    (resourceNsxtLicenseCreate env junkRouterID junkRoute d).d.id = d.id
    ∨ (resourceNsxtLicenseCreate env junkRouterID junkRoute d).d.id
      = junkRoute.id := by
  revert h
  simp only [resourceNsxtLicenseCreate]
  split
  · exact fun _ => Or.inl rfl
  next c heq =>
    split
    · exact fun _ => Or.inl rfl
    · split
      · exact fun _ => Or.inl rfl
      · intro h
        exact Or.inr (readErrPreservesId env { d with id := junkRoute.id } h)

/--
Claim C7: the source's Create stores `staticRoute.Id` as the new instance
ID — `staticRoute` being an identifier defined nowhere in the file (a
copy-paste defect from a static-route resource; the Go file does not
compile) — rather than any identity carried by the `CreateLicense`
response.  Concretely: with every remote call answering 200, the creation
response carrying license key "LIC-KEY", and the undefined `staticRoute`
modelled with `Id` "route9", Create succeeds and stores "route9".
-/
theorem createStoresJunkId :
    (resourceNsxtLicenseCreate ⟨some clientAllOk, false⟩ "junk-router" sr₀
        dNew).err = none
    ∧ (resourceNsxtLicenseCreate ⟨some clientAllOk, false⟩ "junk-router" sr₀
        dNew).d.id = "route9"
    ∧ clientAllOk.createLicense.value.licenseKey = "LIC-KEY"
    ∧ "route9" ≠ "LIC-KEY" := by
  decide

/--
Claim C8, counterexample.  The claim says every invocation that returns
an error leaves the instance's ID unchanged; but when the creation call
succeeds and the follow-up Read then fails, Create returns that error
with the ID already overwritten (here from `""` to `"route9"`).
-/
theorem createFailurePathChangesId :
    ((resourceNsxtLicenseCreate ⟨some clientReadFails, false⟩ "junk-router" sr₀
        dNew).err.isSome = true)
    ∧ (resourceNsxtLicenseCreate ⟨some clientReadFails, false⟩ "junk-router" sr₀
        dNew).d.id ≠ dNew.id := by
  decide

/--
Claim C8 (amended): for Read, Update and Delete every error return leaves
the instance's ID unchanged, and the only transitions that change (and
then clear) the ID are the 404-on-Read and 404-on-Delete reconciliation
cases (for Update, the 404 branch of its follow-up Read), all of which
return success; Create keeps the ID unchanged on every failure up to and
including the creation call, but once that call succeeds it stores the
new ID before its follow-up Read, so an error of that Read is returned
with the ID already overwritten.
-/
theorem idDiscipline (env : Env) (junkRouterID : String)
    (junkRoute : StaticRoute) (d : ResourceData) :
    ((resourceNsxtLicenseRead env d).err.isSome →
      (resourceNsxtLicenseRead env d).d.id = d.id)
    ∧ ((resourceNsxtLicenseUpdate env d).err.isSome →
      (resourceNsxtLicenseUpdate env d).d.id = d.id)
    ∧ ((resourceNsxtLicenseDelete env d).err.isSome →
      (resourceNsxtLicenseDelete env d).d.id = d.id)
    ∧ ((resourceNsxtLicenseRead env d).d.id ≠ d.id →
      (resourceNsxtLicenseRead env d).err = none
      ∧ (resourceNsxtLicenseRead env d).d.id = ""
      ∧ ∃ c, env.nsxtClient = some c
        ∧ respIs404
            (c.readStaticRoute (d.getStr "logical_router_id") d.id).resp
          = true)
    ∧ ((resourceNsxtLicenseUpdate env d).d.id ≠ d.id →
      (resourceNsxtLicenseUpdate env d).err = none
      ∧ (resourceNsxtLicenseUpdate env d).d.id = "")
    ∧ ((resourceNsxtLicenseDelete env d).d.id ≠ d.id →
      (resourceNsxtLicenseDelete env d).err = none
      ∧ (resourceNsxtLicenseDelete env d).d.id = ""
      ∧ ∃ c, env.nsxtClient = some c
        ∧ (c.deleteStaticRoute (d.getStr "logical_router_id") d.id).err = none
        ∧ (c.deleteStaticRoute (d.getStr "logical_router_id") d.id).resp.statusCode
          = 404)
    ∧ ((resourceNsxtLicenseCreate env junkRouterID junkRoute d).err.isSome →
      (resourceNsxtLicenseCreate env junkRouterID junkRoute d).d.id = d.id
      ∨ (resourceNsxtLicenseCreate env junkRouterID junkRoute d).d.id
        = junkRoute.id) := by
  refine ⟨readErrPreservesId env d, ?_, ?_, ?_, ?_, ?_,
    createOutcomeCases env junkRouterID junkRoute d⟩
  · intro h
    rcases updateOutcomeCases env d with h₁ | ⟨h₁, _⟩
    · exact h₁
    · rw [h₁] at h
      cases h
  · intro h
    rcases deleteOutcomeCases env d with h₁ | ⟨h₁, _, _⟩
    · exact h₁
    · rw [h₁] at h
      cases h
  · intro h
    rcases readOutcomeCases env d with h₁ | h₁
    · exact absurd h₁ h
    · exact h₁
  · intro h
    rcases updateOutcomeCases env d with h₁ | h₁
    · exact absurd h₁ h
    · exact h₁
  · intro h
    rcases deleteOutcomeCases env d with h₁ | h₁
    · exact absurd h₁ h
    · exact h₁

/--
Claim C8, witness: a transport error on the fetch makes Read fail, and
the ID of `d₀` is then unchanged.
-/
theorem idDisciplineWitness :
    (resourceNsxtLicenseRead ⟨some clientReadFails, false⟩ d₀).d.id = d₀.id :=
  (idDiscipline ⟨some clientReadFails, false⟩ "junk-router" sr₀ d₀).1
    (by decide)

/-- Read never issues an update call, whichever branch it takes. -/
theorem readNoUpdateCalls (env : Env) (d : ResourceData) :
    (resourceNsxtLicenseRead env d).calls.filter RemoteCall.isUpdate = [] := by
  simp only [resourceNsxtLicenseRead]
  split
  · rfl
  · split
    · rfl
    · split
      · rfl
      · split
        · rfl
        · split
          · rfl
          · split
            · rfl
            · rfl

/--
Claim C9: once past its identifier checks, Update issues exactly one
update call, whose payload is the full replacement `updatePayload` —
the stored revision token together with every mutable field read back
from the instance (its follow-up Read issues no update call).
-/
theorem updateSendsFullPayloadOnce (env : Env) (c : Client) (d : ResourceData)
    (hc : env.nsxtClient = some c) (hid : d.id ≠ "")
    (hrouter : d.getStr "logical_router_id" ≠ "") :
    (resourceNsxtLicenseUpdate env d).calls.filter RemoteCall.isUpdate =
      [RemoteCall.updateStaticRoute (d.getStr "logical_router_id") d.id
        (updatePayload d (d.getStr "logical_router_id"))]
    ∧ updatePayload d (d.getStr "logical_router_id") =
      ⟨"", d.getInt "revision", d.getStr "description", d.getStr "display_name",
        getTagsFromSchema d, d.getStr "logical_router_id", d.getStr "network",
        getNextHopsFromSchema d⟩ := by
  refine ⟨?_, rfl⟩
  simp only [resourceNsxtLicenseUpdate, hc]
  rw [if_neg hid, if_neg hrouter]
  split
  · simp [RemoteCall.isUpdate]
  · simp [List.filter_append, readNoUpdateCalls, RemoteCall.isUpdate]

/--
Claim C9, witness: Update of `d₀` against the all-OK mock client issues
exactly the one update call with the full payload.
-/
theorem updateSendsFullPayloadOnceWitness :
    (resourceNsxtLicenseUpdate ⟨some clientAllOk, false⟩ d₀).calls.filter
        RemoteCall.isUpdate =
      [RemoteCall.updateStaticRoute "router1" "route9"
        (updatePayload d₀ "router1")] :=
  (updateSendsFullPayloadOnce ⟨some clientAllOk, false⟩ clientAllOk d₀ rfl
    (by decide) (by decide)).1

/-- Looking a key up after an association-list update: the new value at
the updated key, the old association elsewhere. -/
theorem getField_setField (fs : List (String × Value)) (k : String) (v : Value)
    (q : String) :
    getField (setField fs k v) q = if k = q then some v else getField fs q := by
  induction fs with
  | nil =>
    by_cases h : k = q <;> simp [setField, getField, h]
  | cons p rest ih =>
    obtain ⟨k₁, v₁⟩ := p
    by_cases h₁ : k₁ = k
    · subst h₁
      by_cases h : k₁ = q <;> simp [setField, getField, h]
    · by_cases h : k₁ = q
      · subst h
        have hk : ¬ k = k₁ := fun hkq => h₁ hkq.symm
        simp [setField, getField, h₁, hk]
      · simp [setField, getField, h₁, h, ih]

/--
Claim C10: on a successful remote fetch (non-404, no transport error,
next-hop codec succeeding), Read overwrites exactly the fields
`revision`, `description`, `display_name`, `tags`, `logical_router_id`,
`network` and `next_hops` with the values of the fetched route, leaving
every other field untouched; of those keys only `description` appears in
the license resource's declared schema, and in particular `description`
is the only computed schema field Read ever writes.
-/
theorem readSuccessWritesExactly (env : Env) (c : Client) (d : ResourceData)
    (hc : env.nsxtClient = some c) (hid : d.id ≠ "")
    (hrouter : d.getStr "logical_router_id" ≠ "")
    (h404 : respIs404
      (c.readStaticRoute (d.getStr "logical_router_id") d.id).resp = false)
    (herr : (c.readStaticRoute (d.getStr "logical_router_id") d.id).err = none)
    (hcodec : env.nextHopsCodecFails = false) :
    (resourceNsxtLicenseRead env d).err = none
    ∧ getField (resourceNsxtLicenseRead env d).d.fields "revision" =
        some (Value.int
          (c.readStaticRoute (d.getStr "logical_router_id") d.id).value.revision)
    ∧ getField (resourceNsxtLicenseRead env d).d.fields "description" =
        some (Value.str
          (c.readStaticRoute (d.getStr "logical_router_id") d.id).value.description)
    ∧ getField (resourceNsxtLicenseRead env d).d.fields "display_name" =
        some (Value.str
          (c.readStaticRoute (d.getStr "logical_router_id") d.id).value.displayName)
    ∧ getField (resourceNsxtLicenseRead env d).d.fields "tags" =
        some (Value.tagList
          (c.readStaticRoute (d.getStr "logical_router_id") d.id).value.tags)
    ∧ getField (resourceNsxtLicenseRead env d).d.fields "logical_router_id" =
        some (Value.str
          (c.readStaticRoute (d.getStr "logical_router_id") d.id).value.logicalRouterId)
    ∧ getField (resourceNsxtLicenseRead env d).d.fields "network" =
        some (Value.str
          (c.readStaticRoute (d.getStr "logical_router_id") d.id).value.network)
    ∧ getField (resourceNsxtLicenseRead env d).d.fields "next_hops" =
        some (Value.hopList
          (c.readStaticRoute (d.getStr "logical_router_id") d.id).value.nextHops)
    ∧ (∀ k, k ∉ readOverwrittenKeys →
        getField (resourceNsxtLicenseRead env d).d.fields k = getField d.fields k)
    ∧ licenseSchemaKeys.filter (fun k => readOverwrittenKeys.contains k) =
        ["description"]
    ∧ ((resourceNsxtLicenseSchema.filter (fun e => e.computed)).map
          (fun e => e.name)).filter (fun k => readOverwrittenKeys.contains k) =
        ["description"] := by
  have hrd : resourceNsxtLicenseRead env d =
      ⟨none,
        ((((((d.set "revision" (Value.int
            (c.readStaticRoute (d.getStr "logical_router_id") d.id).value.revision)).set
          "description" (Value.str
            (c.readStaticRoute (d.getStr "logical_router_id") d.id).value.description)).set
          "display_name" (Value.str
            (c.readStaticRoute (d.getStr "logical_router_id") d.id).value.displayName)).set
          "tags" (Value.tagList
            (c.readStaticRoute (d.getStr "logical_router_id") d.id).value.tags)).set
          "logical_router_id" (Value.str
            (c.readStaticRoute (d.getStr "logical_router_id") d.id).value.logicalRouterId)).set
          "network" (Value.str
            (c.readStaticRoute (d.getStr "logical_router_id") d.id).value.network)).set
          "next_hops" (Value.hopList
            (c.readStaticRoute (d.getStr "logical_router_id") d.id).value.nextHops),
        [RemoteCall.readStaticRoute (d.getStr "logical_router_id") d.id]⟩ := by
    simp [resourceNsxtLicenseRead, hc, hid, hrouter, h404, herr,
      setTagsInSchema, setNextHopsInSchema, hcodec]
  rw [hrd]
  refine ⟨rfl, ?_, ?_, ?_, ?_, ?_, ?_, ?_, ?_, by decide, by decide⟩
  · simp [ResourceData.set, getField_setField]
  · simp [ResourceData.set, getField_setField]
  · simp [ResourceData.set, getField_setField]
  · simp [ResourceData.set, getField_setField]
  · simp [ResourceData.set, getField_setField]
  · simp [ResourceData.set, getField_setField]
  · simp [ResourceData.set, getField_setField]
  · intro k hk
    simp only [readOverwrittenKeys, List.mem_cons, List.not_mem_nil, or_false,
      not_or] at hk
    obtain ⟨h₁, h₂, h₃, h₄, h₅, h₆, h₇⟩ := hk
    have g₁ : ¬ "revision" = k := fun h => h₁ h.symm
    have g₂ : ¬ "description" = k := fun h => h₂ h.symm
    have g₃ : ¬ "display_name" = k := fun h => h₃ h.symm
    have g₄ : ¬ "tags" = k := fun h => h₄ h.symm
    have g₅ : ¬ "logical_router_id" = k := fun h => h₅ h.symm
    have g₆ : ¬ "network" = k := fun h => h₆ h.symm
    have g₇ : ¬ "next_hops" = k := fun h => h₇ h.symm
    simp [ResourceData.set, getField_setField, g₁, g₂, g₃, g₄, g₅, g₆, g₇]

/--
Claim C10, witness: Read of `d₀` against the all-OK mock client succeeds
and stores the fetched route's description.
-/
theorem readSuccessWritesExactlyWitness :
    (resourceNsxtLicenseRead ⟨some clientAllOk, false⟩ d₀).err = none
    ∧ getField (resourceNsxtLicenseRead ⟨some clientAllOk, false⟩ d₀).d.fields
        "description" = some (Value.str "edge route") :=
  ⟨(readSuccessWritesExactly ⟨some clientAllOk, false⟩ clientAllOk d₀ rfl
      (by decide) (by decide) (by decide) (by decide) rfl).1,
   (readSuccessWritesExactly ⟨some clientAllOk, false⟩ clientAllOk d₀ rfl
      (by decide) (by decide) (by decide) (by decide) rfl).2.2.1⟩

end NsxtLicense
